import Mathlib

/-!
Shallow embedding of the websocket chat core (`src/socket.py`) and its HTTP
gateway (`src/server.py`).

The repository is a small real-time chat relay:

* `src/socket.py` — `WebSocketServer`: a set of connected clients
  (`self.clients`), a per-connection read loop (`ws_handler` /
  `distribute`) that parses each frame with `json.loads`, inserts the
  record into MongoDB (`insert_one`), mirrors it (minus `_id`) into
  `storage/data.json` (`save_to_json_file`, a read-modify-write of the
  whole file opened `r+`, `seek(0)` and `json.dump(..., indent=4)` with no
  truncation), and broadcasts the serialized record to every client,
  evicting a client whose `send` raises (`broadcast`).
* `src/server.py` — aiohttp handlers: `handle_send_message` stamps the
  current time as `date`, forwards the record over a transient websocket
  (`send_to_socket_server`, whose body is wrapped in `try/except
  Exception`), and unconditionally answers "Message sent successfully!";
  `handle_get_messages` reads `storage/data.json`, catching only
  `FileNotFoundError`.

Values are modelled by the inductive `J`, which includes bson `ObjectId`s
alongside the JSON-native constructors: a successful `insert_one` mutates
the message dict, planting a generated `ObjectId` under `"_id"`, and
`json.dumps` deterministically raises `TypeError` on any value containing
one (predicate `serializable`) — which is why, on the normal path, the
broadcast loop catches that error for every client and delivers nothing.
Library calls are otherwise modelled by their observable outcomes: a frame
arrives already classified as parsed-or-malformed, and the success of the
database insert and of each per-client network send is an oracle
parameter.  Machinery that the claims need at the byte level — the
`seek(0)`-without-truncate rewrite of the mirror file — is modelled over
`String` with an executable serializer `dumpJ` mirroring
`json.dump(..., indent=4)`.
-/

/-- Values held by the Python dicts flowing through the server.  The first
six constructors are the JSON-native values `json.loads` can produce;
`oid` is a bson `ObjectId`, which never comes from `json.loads` but is
planted into the message dict by a successful `insert_one` (pymongo
generates one and mutates the passed dict, adding it under `"_id"`).  An
`ObjectId` is not JSON-serializable: `json.dumps`/`json.dump` raise
`TypeError` on any value containing one. -/
inductive J where
  | str : String → J
  | num : Int → J
  | bool : Bool → J
  | null : J
  | arr : List J → J
  | obj : List (String × J) → J
  | oid : String → J

/-- Hexadecimal digit character, lower case, as Python's `\uXXXX` escapes use. -/
def hexDigit (n : Nat) : Char :=
  if n < 10 then Char.ofNat (48 + n) else Char.ofNat (87 + n)

/-- Four-digit hexadecimal rendering used by `\uXXXX` escapes. -/
def hex4 (n : Nat) : String :=
  String.mk [hexDigit (n / 4096 % 16), hexDigit (n / 256 % 16),
             hexDigit (n / 16 % 16), hexDigit (n % 16)]

/-- Escape of one character inside a JSON string literal, mirroring
`json.dumps` with its default `ensure_ascii=True`. -/
def escChar (c : Char) : String :=
  if c = '"' then "\\\""
  else if c = '\\' then "\\\\"
  else if c = '\n' then "\\n"
  else if c = '\t' then "\\t"
  else if c = '\r' then "\\r"
  else if c.toNat < 32 || c.toNat > 126 then "\\u" ++ hex4 c.toNat
  else String.singleton c

/-- Serialization of a string as a JSON string literal. -/
def dumpStr (s : String) : String :=
  "\"" ++ String.join (s.toList.map escChar) ++ "\""

/-- Indentation emitted by `json.dump(..., indent=4)` at nesting level `lvl`. -/
def spaces (n : Nat) : String :=
  String.mk (List.replicate n ' ')

mutual

/-- Serialization mirroring Python `json.dump(value, file, indent=4)`:
each element of an array or object is placed on its own line, indented four
spaces per nesting level, and item separators are `","` followed by a
newline; an empty array prints as `[]` and an empty object as `\x7b\x7d`.
On an `ObjectId` the real `json.dump` raises `TypeError`; the case is kept
total here with an arbitrary rendering because no `ObjectId` can reach the
mirror file's serializer: the only one in the system is planted at the
top-level `"_id"` key by `insert_one`, and `save_to_json_file` strips that
key before dumping (everything else came out of `json.loads`). -/
def dumpJ : Nat → J → String
  | _, .str s => dumpStr s
  | _, .num n => toString n
  | _, .bool b => cond b "true" "false"
  | _, .null => "null"
  | _, .oid s => "ObjectId(" ++ s ++ ")"
  | _, .arr [] => "[]"
  | lvl, .arr (x :: xs) =>
      "[\n" ++ dumpArrItems (lvl + 1) x xs ++ "\n" ++ spaces (4 * lvl) ++ "]"
  | _, .obj [] => "\x7b\x7d"
  | lvl, .obj (kv :: kvs) =>
      "\x7b\n" ++ dumpObjItems (lvl + 1) kv kvs ++ "\n" ++ spaces (4 * lvl) ++ "\x7d"
termination_by lvl j => sizeOf j
decreasing_by all_goals (simp_wf; try omega)

/-- Comma-and-newline separated rendering of the items of a JSON array. -/
def dumpArrItems : Nat → J → List J → String
  | lvl, x, [] => spaces (4 * lvl) ++ dumpJ lvl x
  | lvl, x, y :: ys =>
      spaces (4 * lvl) ++ dumpJ lvl x ++ ",\n" ++ dumpArrItems lvl y ys
termination_by lvl x xs => sizeOf x + sizeOf xs
decreasing_by all_goals (simp_wf; try omega)

/-- Comma-and-newline separated rendering of the members of a JSON object. -/
def dumpObjItems : Nat → (String × J) → List (String × J) → String
  | lvl, (k, v), [] => spaces (4 * lvl) ++ dumpStr k ++ ": " ++ dumpJ lvl v
  | lvl, (k, v), kv2 :: kvs =>
      spaces (4 * lvl) ++ dumpStr k ++ ": " ++ dumpJ lvl v ++ ",\n" ++
        dumpObjItems lvl kv2 kvs
termination_by lvl kv kvs => sizeOf kv + sizeOf kvs
decreasing_by all_goals (simp_wf; try omega)

end

/-- Top-level serialization of a list of records, as `json.dump(data, file,
indent=4)` renders the Python list `data`. -/
def dumpArr (l : List J) : String :=
  dumpJ 0 (.arr l)

mutual

/-- Whether `json.dumps` accepts the value: `True` exactly when no bson
`ObjectId` occurs anywhere inside it.  On a value containing one,
`json.dumps` raises `TypeError: Object of type ObjectId is not JSON
serializable`. -/
def serializable : J → Bool
  | .str _ => true
  | .num _ => true
  | .bool _ => true
  | .null => true
  | .oid _ => false
  | .arr l => serializableList l
  | .obj l => serializableObj l

/-- Serializability of every element of an array. -/
def serializableList : List J → Bool
  | [] => true
  | x :: xs => serializable x && serializableList xs

/-- Serializability of every member value of an object. -/
def serializableObj : List (String × J) → Bool
  | [] => true
  | (_, v) :: kvs => serializable v && serializableObj kvs

end

/-- Effect of `file.seek(0)` followed by writing `new` on a file opened
`r+` that currently holds `old`, with no `truncate()`: the new bytes
overwrite the beginning of the file and any excess old bytes survive at the
end. -/
def writeOver (new old : String) : String :=
  new ++ String.mk (old.data.drop new.length)

example : writeOver "ab" "xyzw" = "abzw" := by decide
example : writeOver "abcde" "xy" = "abcde" := by decide

/-- Connection handles: the identity of a websocket connection object.
Opaque, unique for the connection's lifetime. -/
abbrev ClientId := Nat

/-- Field lookup on a parsed record, as Python `d[k]` / `d.get(k)` reads a
`dict` produced by `json.loads`; `none` on a non-dict or a missing key. -/
def getField (j : J) (k : String) : Option J :=
  match j with
  | .obj l => (l.find? (fun kv => kv.1 == k)).map Prod.snd
  | _ => none

/-- Dictionary comprehension of `save_to_json_file` line 72:
`\x7bk: v for k, v in message_data.items() if k != '_id'\x7d` — the record
with every `"_id"` member dropped and all other members kept in order.  On
a non-dict value the comprehension is never reached (the record came out of
a successful `insert_one`, hence is a dict); we keep the value unchanged. -/
def stripId : J → J
  | .obj l => .obj (l.filter (fun kv => kv.1 ≠ "_id"))
  | j => j

/-- State of `storage/data.json` as `json.load` sees it: the file may be
absent, may hold bytes that fail to parse, or parses to a JSON value. -/
inductive FileState where
  | missing : FileState
  | corrupt : FileState
  | content : J → FileState

/-- Embedding of `WebSocketServer.save_to_json_file` (src/socket.py lines
67–80) at the parsed level: open `r+` (raises `FileNotFoundError` when the
file is absent), `json.load` (raises on unparsable bytes), append the
`_id`-stripped record when the parsed data is a list — otherwise start a
fresh one-element list — and rewrite the file.  The byte-level effect of
the rewrite is treated separately by `mirrorRun`. -/
def save_to_json_file (fs : FileState) (message_data : J) : Except String FileState :=
  match fs with
  | .missing => .error "FileNotFoundError"
  | .corrupt => .error "JSONDecodeError"
  | .content d =>
      let data_to_save := stripId message_data
      match d with
      | .arr l => .ok (.content (.arr (l ++ [data_to_save])))
      | _ => .ok (.content (.arr [data_to_save]))

/-- Document as it stands after a successful `insert_one`: pymongo mutates
the passed dict in place, adding a generated bson `ObjectId` under `"_id"`
when that key is absent (a client-supplied `_id` is kept untouched); `oid`
identifies the generated `ObjectId`. -/
def insertedDoc (oid : String) (l : List (String × J)) : J :=
  if (l.map Prod.fst).contains "_id" then .obj l
  else .obj (l ++ [("_id", J.oid oid)])

/-- Embedding of `insert_one` on the `messages` collection (src/socket.py
line 59) with its outcome as an oracle: when `insertOk` is false the call
raises (server unreachable / write error) and nothing is stored; when it
succeeds the document — now carrying an `_id`, see `insertedDoc` — is
appended to the collection.  A non-dict value makes `insert_one` raise a
`TypeError`. -/
def mongoInsert (insertOk : Bool) (oid : String) (db : List J) (message_data : J) :
    Except String (List J × J) :=
  match message_data with
  | .obj l =>
      if insertOk then .ok (db ++ [insertedDoc oid l], insertedDoc oid l)
      else .error "StoreUnavailable"
  | _ => .error "TypeError"

/-- Body of the `for client in clients_copy` loop of
`WebSocketServer.broadcast`.  The sent expression is
`client.send(json.dumps(message_data))`, evaluated inside the `try`:
when `message_data` contains an `ObjectId` (as it deterministically does
after `insert_one` added one under `"_id"`), `json.dumps` raises
`TypeError` for this client — and equally for every other client of the
loop; otherwise the `send` itself may still raise on a broken connection
(network oracle `sendOk`).  Either exception is caught by the
`except Exception` branch, which removes the client from the live set
(`self.clients.remove(client)`) and moves on; a successful send is logged
as a delivery. -/
def broadcastStep (sendOk : ClientId → Bool) (message_data : J)
    (acc : List ClientId × List (ClientId × J)) (client : ClientId) :
    List ClientId × List (ClientId × J) :=
  if serializable message_data && sendOk client then
    (acc.1, acc.2 ++ [(client, message_data)])
  else (acc.1.erase client, acc.2)

/-- Embedding of `WebSocketServer.broadcast` (src/socket.py lines 82–95):
iterate `broadcastStep` over the snapshot `clients_copy = set(self.clients)`
taken before the loop, starting from the current client set and an empty
delivery log.  Returns the surviving client set and the deliveries made
(recipient paired with the record whose serialization was sent). -/
def broadcast (sendOk : ClientId → Bool) (clients : List ClientId) (message_data : J) :
    List ClientId × List (ClientId × J) :=
  clients.foldl (broadcastStep sendOk message_data) (clients, [])

/-- Observable state of the websocket server process: the connected client
set `self.clients`, the MongoDB `messages` collection, the mirror file, and
the log of deliveries made so far. -/
structure ServerState where
  clients : List ClientId
  db : List J
  file : FileState
  delivered : List (ClientId × J)

/-- Outcome environment for one loop iteration of `distribute`: the parse
result of the inbound frame (`none` when `json.loads` raises), whether the
MongoDB insert succeeds, the `_id` it would generate, and which clients'
`send` calls succeed during the broadcast. -/
structure FrameEnv where
  frame : Option J
  insertOk : Bool
  oid : String
  sendOk : ClientId → Bool

/-- Body of `distribute`'s loop for one successfully parsed record
(src/socket.py lines 56–65): insert into MongoDB, mirror to the JSON file,
broadcast.  None of the three calls is guarded by `try/except` inside
`distribute`, so the first raising step aborts the iteration with the
exception; the returned state reflects exactly the steps completed. -/
def processMessage (e : FrameEnv) (st : ServerState) (message_data : J) :
    ServerState × Option String :=
  match mongoInsert e.insertOk e.oid st.db message_data with
  | .error exn => (st, some exn)
  | .ok (db', doc) =>
      let st1 : ServerState := { st with db := db' }
      match save_to_json_file st1.file doc with
      | .error exn => (st1, some exn)
      | .ok f' =>
          let st2 : ServerState := { st1 with file := f' }
          let (cl', del) := broadcast e.sendOk st2.clients doc
          ({ st2 with clients := cl', delivered := st2.delivered ++ del }, none)

/-- Embedding of `WebSocketServer.distribute` (src/socket.py lines 47–65):
`async for message in ws` processes the connection's frames in order;
`json.loads` on a malformed frame raises `JSONDecodeError`, and any
exception from the loop body propagates, terminating the loop.  Returns
the state reached and the exception (if any) that escaped. -/
def distribute (st : ServerState) : List FrameEnv → ServerState × Option String
  | [] => (st, none)
  | e :: rest =>
      match e.frame with
      | none => (st, some "JSONDecodeError")
      | some message_data =>
          match processMessage e st message_data with
          | (st', none) => distribute st' rest
          | (st', some exn) => (st', some exn)

/-- `set.add`: inserts the connection, a no-op when already present. -/
def addClient (clients : List ClientId) (ws : ClientId) : List ClientId :=
  if ws ∈ clients then clients else clients ++ [ws]

/-- Embedding of `WebSocketServer.ws_handler` (src/socket.py lines 35–45):
add the connection to `self.clients`, run `distribute`, and in the
`finally` block remove it from `self.clients` when still present; an
exception raised by `distribute` still propagates after the `finally`
cleanup (the websockets library then closes that connection). -/
def ws_handler (ws : ClientId) (st : ServerState) (frames : List FrameEnv) :
    ServerState × Option String :=
  let st1 : ServerState := { st with clients := addClient st.clients ws }
  let (st2, exn) := distribute st1 frames
  ({ st2 with clients := st2.clients.erase ws }, exn)

/-- Embedding of `send_to_socket_server` (src/server.py lines 40–46): the
connect-and-send is wrapped in `try/except Exception`, so the function
always returns normally; the oracle `forwardOk` says whether the frame
reached the websocket server (`some` the record sent) or the attempt
raised and was swallowed (`none`). -/
def send_to_socket_server (forwardOk : Bool) (message_data : J) : Option J :=
  if forwardOk then some message_data else none

/-- Embedding of `handle_send_message` (src/server.py lines 29–37): build
the record with the server-stamped `date` (`datetime.datetime.now()` passed
in as `now`) and the form's `username` and `message`, forward it, and
answer `"Message sent successfully!"`.  Returns the HTTP response text and
what (if anything) was forwarded to the websocket server. -/
def handle_send_message (now username message : String) (forwardOk : Bool) :
    String × Option J :=
  let message_data : J :=
    .obj [("date", .str now), ("username", .str username), ("message", .str message)]
  let sent := send_to_socket_server forwardOk message_data
  ("Message sent successfully!", sent)

/-- Embedding of `handle_get_messages` (src/server.py lines 49–55): open
and `json.load` the mirror file inside a `try` that catches only
`FileNotFoundError` (yielding `[]`); a parse failure propagates out of the
handler. -/
def handle_get_messages (fs : FileState) : Except String J :=
  match fs with
  | .missing => .ok (.arr [])
  | .corrupt => .error "JSONDecodeError"
  | .content d => .ok d

/-- One byte-level append to the mirror file, carrying alongside the raw
bytes the list the file currently parses to: `json.load` the file (the
carried list), append the `_id`-stripped record, `seek(0)` and `json.dump`
the new list with `indent=4` over the old bytes without truncation. -/
def mirrorStep (fileAndData : String × List J) (message_data : J) : String × List J :=
  let l' := fileAndData.2 ++ [stripId message_data]
  (writeOver (dumpArr l') fileAndData.1, l')

/-- Byte-level history of the mirror file: `init_data_file` writes `[]`
(src/socket.py lines 27–33), then each message appends via
`save_to_json_file`'s read-rewrite.  Returns the final raw bytes and the
record list they should represent. -/
def mirrorRun (records : List J) : String × List J :=
  records.foldl mirrorStep ("[]", [])

/-! Serializer length lemmas: appending one record to the list can only
grow the serialized text, which is what makes the missing `truncate()` in
`save_to_json_file` harmless as long as the file's previous contents were
themselves a serialized record list. -/

theorem dumpArrItems_length_le_snoc (lvl : Nat) (y x : J) (xs : List J) :
    (dumpArrItems lvl x xs).length ≤ (dumpArrItems lvl x (xs ++ [y])).length := by
  induction xs generalizing x with
  | nil =>
      simp only [List.nil_append, dumpArrItems, String.length_append]
      omega
  | cons z zs ih =>
      simp only [List.cons_append, dumpArrItems, String.length_append]
      have h := ih z
      omega

theorem dumpArr_length_le_snoc (l : List J) (x : J) :
    (dumpArr l).length ≤ (dumpArr (l ++ [x])).length := by
  cases l with
  | nil =>
      have h2 : ("[]" : String).length = 2 := rfl
      have h3 : ("[\n" : String).length = 2 := rfl
      simp only [dumpArr, List.nil_append, dumpJ, String.length_append, h2, h3]
      omega
  | cons z zs =>
      have h : ((z :: zs) ++ [x]) = z :: (zs ++ [x]) := rfl
      simp only [dumpArr, h, dumpJ, String.length_append]
      have := dumpArrItems_length_le_snoc (0 + 1) x z zs
      omega

theorem mirrorStep_wellformed (raw : String) (l : List J) (r : J)
    (h : raw = dumpArr l) :
    (mirrorStep (raw, l) r).1 = dumpArr (mirrorStep (raw, l) r).2 := by
  subst h
  show writeOver (dumpArr (l ++ [stripId r])) (dumpArr l) = dumpArr (l ++ [stripId r])
  unfold writeOver
  have hle := dumpArr_length_le_snoc l (stripId r)
  have hdrop : (dumpArr l).data.drop (dumpArr (l ++ [stripId r])).length = [] := by
    rw [List.drop_eq_nil_iff]
    exact hle
  rw [hdrop]
  simp

theorem mirrorFold_wellformed (recs : List J) :
    ∀ (raw : String) (l : List J), raw = dumpArr l →
      (recs.foldl mirrorStep (raw, l)).1 = dumpArr (recs.foldl mirrorStep (raw, l)).2 := by
  induction recs with
  | nil => intro raw l h; simpa using h
  | cons r rs ih =>
      intro raw l h
      simp only [List.foldl_cons]
      have hstep := mirrorStep_wellformed raw l r h
      exact ih _ _ hstep

/-! Characterization of the fan-out loop: the deliveries are exactly the
live members of the snapshot, in snapshot order, each receiving the record
itself; the surviving client set is the starting set with every failed
member erased. -/

theorem foldl_broadcastStep_snd (sendOk : ClientId → Bool) (md : J)
    (snap : List ClientId) :
    ∀ acc : List ClientId × List (ClientId × J),
      (snap.foldl (broadcastStep sendOk md) acc).2
        = acc.2 ++ (snap.filter (fun c => serializable md && sendOk c)).map
            (fun c => (c, md)) := by
  induction snap with
  | nil => intro acc; simp
  | cons c cs ih =>
      intro acc
      by_cases h : (serializable md && sendOk c) = true <;>
        simp [broadcastStep, h, ih, -Bool.not_and]

theorem foldl_broadcastStep_fst (sendOk : ClientId → Bool) (md : J)
    (snap : List ClientId) :
    ∀ acc : List ClientId × List (ClientId × J),
      (snap.foldl (broadcastStep sendOk md) acc).1
        = (snap.filter (fun c => !(serializable md && sendOk c))).foldl
            List.erase acc.1 := by
  induction snap with
  | nil => intro acc; simp
  | cons c cs ih =>
      intro acc
      by_cases h : (serializable md && sendOk c) = true <;>
        simp [broadcastStep, h, ih, -Bool.not_and]

theorem mem_foldl_erase (fs : List ClientId) :
    ∀ (l : List ClientId) (x : ClientId), x ∈ fs.foldl List.erase l → x ∈ l := by
  induction fs with
  | nil => intro l x h; simpa using h
  | cons f fs ih =>
      intro l x h
      simp only [List.foldl_cons] at h
      exact List.mem_of_mem_erase (ih _ _ h)

theorem not_mem_foldl_erase_of_not_mem (fs : List ClientId)
    (l : List ClientId) (x : ClientId) (h : x ∉ l) :
    x ∉ fs.foldl List.erase l :=
  fun hmem => h (mem_foldl_erase fs l x hmem)

theorem nodup_foldl_erase (fs : List ClientId) :
    ∀ l : List ClientId, l.Nodup → (fs.foldl List.erase l).Nodup := by
  induction fs with
  | nil => intro l h; simpa using h
  | cons f fs ih =>
      intro l h
      simp only [List.foldl_cons]
      exact ih _ (h.erase f)

theorem not_mem_foldl_erase (fs : List ClientId) :
    ∀ (l : List ClientId) (c : ClientId), l.Nodup → c ∈ fs →
      c ∉ fs.foldl List.erase l := by
  induction fs with
  | nil => intro l c _ h; simp at h
  | cons f fs ih =>
      intro l c hnd hc
      simp only [List.foldl_cons]
      rcases List.mem_cons.mp hc with hcf | hcs
      · subst hcf
        exact not_mem_foldl_erase_of_not_mem fs _ c hnd.not_mem_erase
      · exact ih _ c (hnd.erase f) hcs

theorem mem_foldl_erase_of_not_mem_fails (fs : List ClientId) :
    ∀ (l : List ClientId) (x : ClientId), x ∉ fs → x ∈ l →
      x ∈ fs.foldl List.erase l := by
  induction fs with
  | nil => intro l x _ h; simpa using h
  | cons f fs ih =>
      intro l x hnf hl
      simp only [List.foldl_cons]
      have hxf : x ≠ f := fun h => hnf (h ▸ List.mem_cons_self f fs)
      exact ih _ x (fun h => hnf (List.mem_cons_of_mem f h))
        ((List.mem_erase_of_ne hxf).mpr hl)

/-! Pipeline lemmas: the success path of one `distribute` iteration, field
preservation through the `_id` mutation, and monotonicity of the client
set (nothing in the message pipeline ever adds a connection). -/

theorem getField_insertedDoc (oid : String) (l : List (String × J)) (k : String)
    (hk : (k == "_id") = false) :
    getField (insertedDoc oid l) k = getField (J.obj l) k := by
  unfold insertedDoc
  by_cases h : (l.map Prod.fst).contains "_id" = true
  · rw [if_pos h]
  · rw [if_neg h]
    have hk' : k ≠ "_id" := by simpa using hk
    have hne : ("_id" : String) ≠ k := fun hh => hk' hh.symm
    simp only [getField, List.find?_append]
    have hfind : List.find? (fun kv => kv.1 == k) [("_id", J.oid oid)] = none := by
      have hbe : (("_id" : String) == k) = false := beq_eq_false_iff_ne.mpr hne
      simp [List.find?, hbe]
    rw [hfind, Option.or_none]

theorem stripId_insertedDoc (oid : String) (l : List (String × J)) :
    stripId (insertedDoc oid l) = .obj (l.filter (fun kv => kv.1 ≠ "_id")) := by
  unfold insertedDoc
  by_cases h : (l.map Prod.fst).contains "_id" = true
  · rw [if_pos h]; rfl
  · rw [if_neg h]
    simp only [stripId, List.filter_append]
    simp

theorem processMessage_ok (e : FrameEnv) (st : ServerState)
    (l : List (String × J)) (fl : List J)
    (hin : e.insertOk = true) (hfile : st.file = .content (.arr fl)) :
    processMessage e st (.obj l)
      = ({ clients := (st.clients.filter
             (fun c => !(serializable (insertedDoc e.oid l) && e.sendOk c))).foldl
               List.erase st.clients,
           db := st.db ++ [insertedDoc e.oid l],
           file := .content (.arr (fl ++ [stripId (insertedDoc e.oid l)])),
           delivered := st.delivered
             ++ (st.clients.filter
                  (fun c => serializable (insertedDoc e.oid l) && e.sendOk c)).map
                  (fun c => (c, insertedDoc e.oid l)) }, none) := by
  simp only [processMessage, mongoInsert, hin, if_true, hfile, save_to_json_file,
    broadcast, foldl_broadcastStep_fst, foldl_broadcastStep_snd, List.nil_append]

theorem serializableObj_append_oid (l : List (String × J)) (k s : String) :
    serializableObj (l ++ [(k, J.oid s)]) = false := by
  induction l with
  | nil => simp [serializableObj, serializable]
  | cons hd t ih =>
      obtain ⟨k0, v0⟩ := hd
      simp [serializableObj, ih]

theorem serializable_insertedDoc_noid (oid : String) (l : List (String × J))
    (hnid : (l.map Prod.fst).contains "_id" = false) :
    serializable (insertedDoc oid l) = false := by
  unfold insertedDoc
  rw [if_neg (by rw [hnid]; exact Bool.false_ne_true)]
  simp [serializable, serializableObj_append_oid]

theorem foldl_erase_self (l : List ClientId) (hnd : l.Nodup) :
    l.foldl List.erase l = [] := by
  rw [List.eq_nil_iff_forall_not_mem]
  intro x hx
  exact not_mem_foldl_erase l l x hnd (mem_foldl_erase l l x hx) hx

/-- Normal-path trace of one `distribute` iteration: the record carries no
client-supplied `_id`, so the successful `insert_one` plants an `ObjectId`
under `_id`, the insert and the (`_id`-stripped) mirror append complete —
and then `json.dumps` raises `TypeError` on the `ObjectId` for every
client of the broadcast loop: each one is caught, each client is evicted,
and nothing at all is delivered. -/
theorem processMessage_noid (e : FrameEnv) (st : ServerState)
    (l : List (String × J)) (fl : List J)
    (hnd : st.clients.Nodup)
    (hin : e.insertOk = true) (hfile : st.file = .content (.arr fl))
    (hnid : (l.map Prod.fst).contains "_id" = false) :
    processMessage e st (.obj l)
      = ({ clients := [],
           db := st.db ++ [insertedDoc e.oid l],
           file := .content (.arr (fl ++ [stripId (insertedDoc e.oid l)])),
           delivered := st.delivered }, none) := by
  rw [processMessage_ok e st l fl hin hfile]
  have hser := serializable_insertedDoc_noid e.oid l hnid
  simp only [hser, Bool.false_and, Bool.not_false, List.filter_true,
    List.filter_false, List.map_nil, List.append_nil]
  rw [foldl_erase_self st.clients hnd]

theorem processMessage_clients_mono (e : FrameEnv) (st : ServerState) (md : J)
    (x : ClientId) (hx : x ∈ (processMessage e st md).1.clients) : x ∈ st.clients := by
  unfold processMessage at hx
  cases hmi : mongoInsert e.insertOk e.oid st.db md with
  | error exn => rw [hmi] at hx; exact hx
  | ok p =>
      rw [hmi] at hx
      cases hsv : save_to_json_file st.file p.2 with
      | error exn => simp [hsv] at hx; exact hx
      | ok f' =>
          simp only [hsv] at hx
          rw [broadcast, foldl_broadcastStep_fst] at hx
          exact mem_foldl_erase _ _ _ hx

theorem distribute_clients_mono (frames : List FrameEnv) :
    ∀ (st : ServerState) (x : ClientId),
      x ∈ (distribute st frames).1.clients → x ∈ st.clients := by
  induction frames with
  | nil => intro st x hx; simpa [distribute] using hx
  | cons e rest ih =>
      intro st x hx
      unfold distribute at hx
      cases hf : e.frame with
      | none => rw [hf] at hx; exact hx
      | some md =>
          rw [hf] at hx
          cases hpm : processMessage e st md with
          | mk st' exn =>
              cases exn with
              | none =>
                  simp only [hpm] at hx
                  have := ih st' x hx
                  have h2 := processMessage_clients_mono e st md x
                  rw [hpm] at h2
                  exact h2 this
              | some s =>
                  simp only [hpm] at hx
                  have h2 := processMessage_clients_mono e st md x
                  rw [hpm] at h2
                  exact h2 hx

/-! Concrete inputs used by counterexamples and witnesses. -/

/-- Well-formed inbound record as the HTML form produces it. -/
def exRec : List (String × J) :=
  [("date", .str "2024-05-01T10:00:00"), ("username", .str "alice"),
   ("message", .str "hi")]

/-- Server state with two connected clients, an empty database and an
empty (but well-formed) mirror file. -/
def exState : ServerState :=
  { clients := [1, 2], db := [], file := .content (.arr []), delivered := [] }

/-- Frame environment for the ordinary all-healthy run: the frame parses,
the insert succeeds (generating ObjectId "oid1"), and no connection is
broken at the network level. -/
def exEnv : FrameEnv :=
  { frame := some (.obj exRec), insertOk := true, oid := "oid1",
    sendOk := fun _ => true }

/-- C1: evaluation of the code at the claim's own scenario — a valid
message (no client-supplied `_id`), two healthy connected clients, the
insert succeeding.  `insert_one` mutates the dict, adding an `ObjectId`
under `_id`; `json.dumps(message_data)` in `broadcast` then raises
`TypeError` inside each client's `try`, so both clients are evicted and
ZERO copies are delivered — the fan-out never delivers to the N connected
clients on this, the program's normal path, contradicting the claim.  The
insert and the `_id`-stripped mirror append do complete, and no error
reaches the caller. -/
theorem fanout_zero_delivery_bug :
    (processMessage exEnv exState (.obj exRec)).2 = none
    ∧ (processMessage exEnv exState (.obj exRec)).1.delivered = []
    ∧ (processMessage exEnv exState (.obj exRec)).1.clients = []
    ∧ (processMessage exEnv exState (.obj exRec)).1.db
        = [.obj (exRec ++ [("_id", .oid "oid1")])]
    ∧ (processMessage exEnv exState (.obj exRec)).1.file
        = .content (.arr [.obj exRec])
    ∧ serializable (.obj (exRec ++ [("_id", .oid "oid1")])) = false :=
  ⟨rfl, rfl, rfl, rfl, rfl, rfl⟩

/-- Record whose `username` is empty — invalid per the specification's
validation-gate requirement. -/
def invalidRec : List (String × J) :=
  [("date", .str "2024-05-01T10:00:00"), ("username", .str ""),
   ("message", .str "hi")]

/-- Frame environment delivering the invalid record, with all effects
available. -/
def cexEnv2 : FrameEnv :=
  { frame := some (.obj invalidRec), insertOk := true, oid := "oid2",
    sendOk := fun _ => true }

/-- Server state with one connected client for the C2 counterexample. -/
def cexState2 : ServerState :=
  { clients := [7], db := [], file := .content (.arr []), delivered := [] }

/-- C2 counterexample: a record with an empty `username` is not rejected —
`distribute` performs no validation at all, so processing it performs one
PrimaryStore insert and one MirrorStore append, where the claim demands
zero of each.  (The broadcast step then attempts fan-out and, as for every
post-insert record without a client-supplied `_id`, delivers nothing: the
`ObjectId` makes `json.dumps` raise, evicting the client.) -/
theorem validation_gate_counterexample :
    getField (.obj invalidRec) "username" = some (.str "")
    ∧ (processMessage cexEnv2 cexState2 (.obj invalidRec)).1.db.length = 1
    ∧ (processMessage cexEnv2 cexState2 (.obj invalidRec)).1.file
        = .content (.arr [.obj invalidRec])
    ∧ (processMessage cexEnv2 cexState2 (.obj invalidRec)).1.delivered = []
    ∧ (processMessage cexEnv2 cexState2 (.obj invalidRec)).1.clients = [] :=
  ⟨rfl, rfl, rfl, rfl, rfl⟩

/-- C2 amended: the pipeline has no validation gate.  A decoded record
whose `username` (or `message`) field is empty is processed exactly like a
valid one: it is inserted into the PrimaryStore and appended (minus `_id`)
to the MirrorStore, and the broadcast loop runs over the registry — which,
for a record without a client-supplied `_id`, delivers nothing and evicts
every client, exactly as it does for a valid record. -/
theorem no_validation_gate (e : FrameEnv) (st : ServerState)
    (l : List (String × J)) (fl : List J)
    (hnd : st.clients.Nodup)
    (hin : e.insertOk = true)
    (hfile : st.file = .content (.arr fl))
    (hnid : (l.map Prod.fst).contains "_id" = false)
    (hinvalid : getField (.obj l) "username" = some (.str "")
        ∨ getField (.obj l) "message" = some (.str "")) :
    (processMessage e st (.obj l)).2 = none
    ∧ (processMessage e st (.obj l)).1.db = st.db ++ [insertedDoc e.oid l]
    ∧ (processMessage e st (.obj l)).1.file
        = .content (.arr (fl ++ [stripId (insertedDoc e.oid l)]))
    ∧ (processMessage e st (.obj l)).1.delivered = st.delivered
    ∧ (processMessage e st (.obj l)).1.clients = [] := by
  rw [processMessage_noid e st l fl hnd hin hfile hnid]
  exact ⟨rfl, rfl, rfl, rfl, rfl⟩

theorem no_validation_gate_witness :
    cexState2.clients.Nodup
    ∧ cexEnv2.insertOk = true
    ∧ cexState2.file = .content (.arr [])
    ∧ (invalidRec.map Prod.fst).contains "_id" = false
    ∧ (getField (.obj invalidRec) "username" = some (.str "")
        ∨ getField (.obj invalidRec) "message" = some (.str ""))
    ∧ ((processMessage cexEnv2 cexState2 (.obj invalidRec)).2 = none
        ∧ (processMessage cexEnv2 cexState2 (.obj invalidRec)).1.db
            = cexState2.db ++ [insertedDoc cexEnv2.oid invalidRec]
        ∧ (processMessage cexEnv2 cexState2 (.obj invalidRec)).1.file
            = .content (.arr ([] ++ [stripId (insertedDoc cexEnv2.oid invalidRec)]))
        ∧ (processMessage cexEnv2 cexState2 (.obj invalidRec)).1.delivered
            = cexState2.delivered
        ∧ (processMessage cexEnv2 cexState2 (.obj invalidRec)).1.clients = []) :=
  ⟨by decide, rfl, rfl, rfl, Or.inl rfl,
   no_validation_gate cexEnv2 cexState2 invalidRec [] (by decide) rfl rfl rfl
     (Or.inl rfl)⟩

/-- Frame environment for a malformed frame: `json.loads` raises. -/
def cexEnvMalformed : FrameEnv :=
  { frame := none, insertOk := true, oid := "oid3",
    sendOk := fun _ => true }

/-- Well-formed frame following the malformed one. -/
def cexEnvGood3 : FrameEnv :=
  { frame := some (.obj exRec), insertOk := true, oid := "oid3b",
    sendOk := fun _ => true }

/-- Server state (no other clients) for the C3 counterexample. -/
def cexState3 : ServerState :=
  { clients := [], db := [], file := .content (.arr []), delivered := [] }

/-- C3 counterexample: a malformed frame is not skipped.  With a malformed
frame followed by a valid one, the handler exits with the decode exception,
the connection is removed from the registry, and the subsequent valid frame
is never processed (the database stays empty) — the claim demands the
connection stay open, remain in the registry and the loop continue. -/
theorem malformed_frame_counterexample :
    (ws_handler 5 cexState3 [cexEnvMalformed, cexEnvGood3]).2
        = some "JSONDecodeError"
    ∧ 5 ∉ (ws_handler 5 cexState3 [cexEnvMalformed, cexEnvGood3]).1.clients
    ∧ (ws_handler 5 cexState3 [cexEnvMalformed, cexEnvGood3]).1.db = [] :=
  ⟨rfl, by decide, rfl⟩

/-- C3 amended: a frame that fails to decode terminates the read loop
rather than being skipped — `json.loads` raises, no `try/except` guards the
loop body, so the exception propagates out of `distribute`, subsequent
frames are not processed, the `finally` in `ws_handler` removes the
connection from the registry, and the exception escapes the handler (the
websockets library then closes that connection; the server process itself
survives). -/
theorem malformed_frame_aborts (ws : ClientId) (st : ServerState)
    (e : FrameEnv) (rest : List FrameEnv) (hframe : e.frame = none) :
    distribute st (e :: rest) = (st, some "JSONDecodeError")
    ∧ (ws_handler ws st (e :: rest)).2 = some "JSONDecodeError"
    ∧ (ws_handler ws st (e :: rest)).1.clients = (addClient st.clients ws).erase ws
    ∧ (ws_handler ws st (e :: rest)).1.db = st.db := by
  have hd : ∀ s : ServerState, distribute s (e :: rest) = (s, some "JSONDecodeError") := by
    intro s
    unfold distribute
    rw [hframe]
  exact ⟨hd st, by simp [ws_handler, hd], by simp [ws_handler, hd], by simp [ws_handler, hd]⟩

theorem malformed_frame_aborts_witness :
    cexEnvMalformed.frame = none
    ∧ (distribute cexState3 [cexEnvMalformed, cexEnvGood3]
          = (cexState3, some "JSONDecodeError")
        ∧ (ws_handler 6 cexState3 [cexEnvMalformed, cexEnvGood3]).2
            = some "JSONDecodeError"
        ∧ (ws_handler 6 cexState3 [cexEnvMalformed, cexEnvGood3]).1.clients
            = (addClient cexState3.clients 6).erase 6
        ∧ (ws_handler 6 cexState3 [cexEnvMalformed, cexEnvGood3]).1.db
            = cexState3.db) :=
  ⟨rfl, malformed_frame_aborts 6 cexState3 cexEnvMalformed [cexEnvGood3] rfl⟩

/-- Frame environment in which the MongoDB insert fails (store
unreachable), everything else healthy. -/
def cexEnv4 : FrameEnv :=
  { frame := some (.obj exRec), insertOk := false, oid := "oid4",
    sendOk := fun _ => true }

/-- Server state with one connected client for the C4 counterexample. -/
def cexState4 : ServerState :=
  { clients := [3], db := [], file := .content (.arr []), delivered := [] }

/-- C4 counterexample: when the PrimaryStore insert fails, the MirrorStore
append and the broadcast do NOT still happen — the uncaught exception
aborts the iteration: the mirror file is unchanged, nothing is delivered,
and the error propagates (tearing down the sender's connection) where the
claim demands mirror + broadcast still occur and no error surface. -/
theorem primary_failure_counterexample :
    (processMessage cexEnv4 cexState4 (.obj exRec)).2 = some "StoreUnavailable"
    ∧ (processMessage cexEnv4 cexState4 (.obj exRec)).1.file = .content (.arr [])
    ∧ (processMessage cexEnv4 cexState4 (.obj exRec)).1.delivered = [] :=
  ⟨rfl, rfl, rfl⟩

/-- C4 amended: a PrimaryStore insert failure is fatal to the iteration:
`insert_one` is not guarded by `try/except`, so the exception propagates
before `save_to_json_file` or `broadcast` run — the state is completely
unchanged and the read loop terminates with the error. -/
theorem primary_failure_aborts (e : FrameEnv) (st : ServerState)
    (l : List (String × J)) (hin : e.insertOk = false) :
    processMessage e st (.obj l) = (st, some "StoreUnavailable") := by
  simp [processMessage, mongoInsert, hin]

theorem primary_failure_aborts_witness :
    cexEnv4.insertOk = false
    ∧ processMessage cexEnv4 cexState4 (.obj exRec)
        = (cexState4, some "StoreUnavailable") :=
  ⟨rfl, primary_failure_aborts cexEnv4 cexState4 exRec rfl⟩

/-- Inbound record carrying a client-supplied JSON `_id`: `insert_one`
keeps it untouched, so the post-insert dict stays JSON-serializable and
the broadcast's `json.dumps` succeeds — the regime in which per-member
network send failures are the reachable failure mode. -/
def exRec5 : List (String × J) :=
  [("date", .str "2024-05-01T10:00:00"), ("username", .str "alice"),
   ("message", .str "hi"), ("_id", .str "client-id-1")]

/-- Frame environment in which client 2's send raises and every other send
succeeds. -/
def cexEnv5 : FrameEnv :=
  { frame := some (.obj exRec5), insertOk := true, oid := "oid5",
    sendOk := fun c => !(c == 2) }

/-- C5: a (network-level) send failure during fan-out evicts exactly that
member: the iteration still completes without an exception, every live
member of the snapshot still receives its copy, the failed member is gone
from the registry, and — since nothing in the pipeline ever re-adds a
connection — it appears in no registry snapshot after any number of
further frames.  The hypotheses pin the regime in which a per-member send
failure is reachable at all: the record keeps a client-supplied
JSON-serializable `_id` (otherwise `json.dumps` fails identically for
every member before any send is attempted, see `processMessage_noid`). -/
theorem send_failure_evicts (e : FrameEnv) (st : ServerState)
    (l : List (String × J)) (fl : List J) (c : ClientId)
    (hnd : st.clients.Nodup)
    (hin : e.insertOk = true)
    (hfile : st.file = .content (.arr fl))
    (hid : (l.map Prod.fst).contains "_id" = true)
    (hser : serializable (.obj l) = true)
    (hc : c ∈ st.clients)
    (hfail : e.sendOk c = false) :
    (processMessage e st (.obj l)).2 = none
    ∧ c ∉ (processMessage e st (.obj l)).1.clients
    ∧ (processMessage e st (.obj l)).1.delivered
        = st.delivered ++ (st.clients.filter (fun x => e.sendOk x)).map
            (fun x => (x, insertedDoc e.oid l))
    ∧ (∀ x ∈ st.clients, e.sendOk x = true →
          x ∈ (processMessage e st (.obj l)).1.clients)
    ∧ ∀ frames : List FrameEnv,
        c ∉ (distribute (processMessage e st (.obj l)).1 frames).1.clients := by
  have hdoc : insertedDoc e.oid l = .obj l := by
    unfold insertedDoc
    rw [if_pos hid]
  have hserdoc : serializable (insertedDoc e.oid l) = true := by
    rw [hdoc]
    exact hser
  rw [processMessage_ok e st l fl hin hfile]
  simp only [hserdoc, Bool.true_and]
  have hcfail : c ∈ st.clients.filter (fun x => !e.sendOk x) :=
    List.mem_filter.mpr ⟨hc, by simp [hfail]⟩
  have hnotmem : c ∉ (st.clients.filter (fun x => !e.sendOk x)).foldl
      List.erase st.clients :=
    not_mem_foldl_erase _ st.clients c hnd hcfail
  refine ⟨trivial, hnotmem, trivial, ?_, ?_⟩
  · intro x hx hxok
    have hxnf : x ∉ st.clients.filter (fun y => !e.sendOk y) := by
      intro hmem
      have := (List.mem_filter.mp hmem).2
      simp [hxok] at this
    exact mem_foldl_erase_of_not_mem_fails _ st.clients x hxnf hx
  · intro frames hmem
    exact hnotmem (distribute_clients_mono frames _ c hmem)

theorem send_failure_evicts_witness :
    exState.clients.Nodup
    ∧ cexEnv5.insertOk = true
    ∧ exState.file = .content (.arr [])
    ∧ (exRec5.map Prod.fst).contains "_id" = true
    ∧ serializable (.obj exRec5) = true
    ∧ (2 : ClientId) ∈ exState.clients
    ∧ cexEnv5.sendOk 2 = false
    ∧ ((processMessage cexEnv5 exState (.obj exRec5)).2 = none
        ∧ (2 : ClientId) ∉ (processMessage cexEnv5 exState (.obj exRec5)).1.clients
        ∧ (processMessage cexEnv5 exState (.obj exRec5)).1.delivered
            = exState.delivered
              ++ (exState.clients.filter (fun x => cexEnv5.sendOk x)).map
                   (fun x => (x, insertedDoc cexEnv5.oid exRec5))
        ∧ (∀ x ∈ exState.clients, cexEnv5.sendOk x = true →
              x ∈ (processMessage cexEnv5 exState (.obj exRec5)).1.clients)
        ∧ ∀ frames : List FrameEnv,
            (2 : ClientId) ∉
              (distribute (processMessage cexEnv5 exState (.obj exRec5)).1
                frames).1.clients) :=
  ⟨by decide, rfl, rfl, rfl, rfl, by decide, rfl,
   send_failure_evicts cexEnv5 exState exRec5 [] 2 (by decide) rfl rfl rfl rfl
     (by decide) rfl⟩

/-- C6: starting from the `[]` that `init_data_file` writes, every
completed `save_to_json_file` rewrite leaves the file holding exactly the
`indent=4` serialization of the accumulated record list — the
`seek(0)`-without-`truncate` write leaves no leftover bytes, because the
serialization of a list never shrinks when a record is appended. -/
theorem mirror_artifact_wellformed (recs : List J) :
    (mirrorRun recs).1 = dumpArr (mirrorRun recs).2 :=
  mirrorFold_wellformed recs "[]" [] (by simp [dumpArr, dumpJ])

/-- C7 counterexample: history retrieval on an artifact that exists but
fails to parse raises the decode error (aiohttp turns it into a 500)
instead of yielding the empty sequence, and the subsequent append fails
too, instead of self-healing. -/
theorem history_corrupt_counterexample :
    handle_get_messages FileState.corrupt = .error "JSONDecodeError"
    ∧ save_to_json_file FileState.corrupt (.obj exRec)
        = .error "JSONDecodeError" :=
  ⟨rfl, rfl⟩

/-- C7 amended: only the missing-file case yields the empty sequence
(`except FileNotFoundError` in `handle_get_messages`); an artifact that
fails to parse makes history retrieval raise, and an append on a corrupt
or missing artifact raises as well rather than healing it. -/
theorem history_selfheal_amended :
    handle_get_messages FileState.missing = .ok (.arr [])
    ∧ handle_get_messages FileState.corrupt = .error "JSONDecodeError"
    ∧ (∀ md : J, save_to_json_file FileState.corrupt md = .error "JSONDecodeError")
    ∧ (∀ md : J, save_to_json_file FileState.missing md = .error "FileNotFoundError") :=
  ⟨rfl, rfl, fun _ => rfl, fun _ => rfl⟩

/-- Record carrying a client-chosen `date` for the C8 counterexample. -/
def cexRec8 : List (String × J) :=
  [("date", .str "CLIENT-CHOSEN-DATE"), ("username", .str "mallory"),
   ("message", .str "hi")]

/-- Frame environment delivering the client-dated record. -/
def cexEnv8 : FrameEnv :=
  { frame := some (.obj cexRec8), insertOk := true, oid := "oid8",
    sendOk := fun _ => true }

/-- Server state with one connected client for the C8 counterexample. -/
def cexState8 : ServerState :=
  { clients := [4], db := [], file := .content (.arr []), delivered := [] }

/-- C8 counterexample: the websocket core assigns no timestamp at ingest —
a frame carrying the arbitrary client-supplied `date`
"CLIENT-CHOSEN-DATE" is persisted to both stores with exactly that value,
so the timestamp IS taken from the client frame.  (Nothing is broadcast at
that input: the `ObjectId` makes `json.dumps` raise and client 4 is
evicted.) -/
theorem server_timestamp_counterexample :
    ((processMessage cexEnv8 cexState8 (.obj cexRec8)).1.db.head?.map
        (fun d => getField d "date"))
      = some (some (.str "CLIENT-CHOSEN-DATE"))
    ∧ (processMessage cexEnv8 cexState8 (.obj cexRec8)).1.file
        = .content (.arr [.obj cexRec8])
    ∧ (processMessage cexEnv8 cexState8 (.obj cexRec8)).1.delivered = [] :=
  ⟨rfl, rfl, rfl⟩

/-- Field lookup is unchanged by the `_id`-stripping dict comprehension,
for any key other than `"_id"`. -/
theorem getField_stripObj (l : List (String × J)) (k : String)
    (hk : (k == "_id") = false) :
    getField (.obj (l.filter (fun kv => kv.1 ≠ "_id"))) k = getField (.obj l) k := by
  have hk' : k ≠ "_id" := by simpa using hk
  induction l with
  | nil => rfl
  | cons hd t ih =>
      obtain ⟨k0, v0⟩ := hd
      by_cases h0 : k0 = "_id"
      · subst h0
        have hbe : (("_id" : String) == k) = false :=
          beq_eq_false_iff_ne.mpr (fun hh => hk' hh.symm)
        simpa [getField, List.filter_cons, List.find?_cons, hbe] using ih
      · by_cases hbk : (k0 == k) = true
        · simp [getField, List.filter_cons, List.find?_cons, h0, hbk]
        · have hbk' : (k0 == k) = false := by
            cases hx : (k0 == k)
            · rfl
            · exact absurd hx hbk
          simpa [getField, List.filter_cons, List.find?_cons, h0, hbk'] using ih

/-- C8 amended: the websocket core trusts the frame: whatever `date` the
inbound record carries is the `date` of the document persisted in the
PrimaryStore, of the record appended to the MirrorStore, and of any copy
the fan-out does deliver (on the normal path it delivers none, every
client being evicted by the `ObjectId` serialization failure).  Only the
HTTP gateway stamps a server-side `date` (its own clock at form-handling
time) when it builds the record it forwards. -/
theorem timestamp_passthrough (e : FrameEnv) (st : ServerState)
    (l : List (String × J)) (fl : List J) (d : J)
    (hin : e.insertOk = true)
    (hfile : st.file = .content (.arr fl))
    (hdate : getField (.obj l) "date" = some d) :
    (∀ doc ∈ (processMessage e st (.obj l)).1.db.drop st.db.length,
        getField doc "date" = some d)
    ∧ (processMessage e st (.obj l)).1.file
        = .content (.arr (fl ++ [.obj (l.filter (fun kv => kv.1 ≠ "_id"))]))
    ∧ getField (.obj (l.filter (fun kv => kv.1 ≠ "_id"))) "date" = some d
    ∧ (∀ cd ∈ (processMessage e st (.obj l)).1.delivered.drop st.delivered.length,
        getField cd.2 "date" = some d)
    ∧ (∀ now u m : String,
        (handle_send_message now u m true).2
          = some (.obj [("date", .str now), ("username", .str u),
                        ("message", .str m)])) := by
  rw [processMessage_ok e st l fl hin hfile]
  have hdoc : getField (insertedDoc e.oid l) "date" = some d :=
    (getField_insertedDoc e.oid l "date" rfl).trans hdate
  refine ⟨?_, ?_, (getField_stripObj l "date" rfl).trans hdate, ?_, fun now u m => rfl⟩
  · intro doc hdocmem
    rw [List.drop_left] at hdocmem
    rcases List.mem_singleton.mp hdocmem with rfl
    exact hdoc
  · rw [stripId_insertedDoc]
  · intro cd hcd
    rw [List.drop_left] at hcd
    rcases List.mem_map.mp hcd with ⟨x, _, rfl⟩
    exact hdoc

theorem timestamp_passthrough_witness :
    cexEnv8.insertOk = true
    ∧ cexState8.file = .content (.arr [])
    ∧ getField (.obj cexRec8) "date" = some (.str "CLIENT-CHOSEN-DATE")
    ∧ ((∀ doc ∈ (processMessage cexEnv8 cexState8 (.obj cexRec8)).1.db.drop
            cexState8.db.length,
          getField doc "date" = some (.str "CLIENT-CHOSEN-DATE"))
        ∧ (processMessage cexEnv8 cexState8 (.obj cexRec8)).1.file
            = .content (.arr ([] ++ [.obj (cexRec8.filter (fun kv => kv.1 ≠ "_id"))]))
        ∧ getField (.obj (cexRec8.filter (fun kv => kv.1 ≠ "_id"))) "date"
            = some (.str "CLIENT-CHOSEN-DATE")
        ∧ (∀ cd ∈ (processMessage cexEnv8 cexState8
              (.obj cexRec8)).1.delivered.drop cexState8.delivered.length,
            getField cd.2 "date" = some (.str "CLIENT-CHOSEN-DATE"))
        ∧ (∀ now u m : String,
            (handle_send_message now u m true).2
              = some (.obj [("date", .str now), ("username", .str u),
                            ("message", .str m)]))) :=
  ⟨rfl, rfl, rfl,
   timestamp_passthrough cexEnv8 cexState8 cexRec8 [] (.str "CLIENT-CHOSEN-DATE")
     rfl rfl rfl⟩

/-- C9: the `/send_message` handler answers "Message sent successfully!"
no matter whether forwarding to the websocket core succeeds — every
exception raised while connecting or sending is swallowed inside
`send_to_socket_server` (and on failure nothing at all reaches the core). -/
theorem gateway_always_success (now u m : String) (fwd : Bool) :
    (handle_send_message now u m fwd).1 = "Message sent successfully!"
    ∧ (handle_send_message now u m false).2 = none :=
  ⟨rfl, rfl⟩

/-- C10: the record appended to the mirror file is the ingested record with
exactly the `_id` key removed: every member of the `_id`-stripped list is a
member of the (post-insert) record, every non-`_id` member of the record
survives — unexpected client-supplied fields included — and order is
preserved (the appended record is literally `filter (· ≠ "_id")`). -/
theorem mirror_strips_exactly_id (e : FrameEnv) (st : ServerState)
    (l : List (String × J)) (fl : List J)
    (hin : e.insertOk = true)
    (hfile : st.file = .content (.arr fl)) :
    (processMessage e st (.obj l)).1.file
      = .content (.arr (fl ++ [.obj (l.filter (fun kv => kv.1 ≠ "_id"))]))
    ∧ ∀ kv : String × J,
        kv ∈ l.filter (fun kv => kv.1 ≠ "_id") ↔ (kv ∈ l ∧ kv.1 ≠ "_id") := by
  constructor
  · rw [processMessage_ok e st l fl hin hfile, stripId_insertedDoc]
  · intro kv
    constructor
    · intro h
      have := List.mem_filter.mp h
      exact ⟨this.1, by simpa using this.2⟩
    · intro h
      exact List.mem_filter.mpr ⟨h.1, by simpa using h.2⟩

/-- Record with an unexpected extra field, for the C10 witness. -/
def cexRec10 : List (String × J) :=
  [("date", .str "2024-05-01T10:00:00"), ("username", .str "bob"),
   ("message", .str "yo"), ("extra_field", .num 42)]

/-- Frame environment delivering the extra-field record. -/
def cexEnv10 : FrameEnv :=
  { frame := some (.obj cexRec10), insertOk := true, oid := "oid10",
    sendOk := fun _ => true }

theorem mirror_strips_exactly_id_witness :
    cexEnv10.insertOk = true
    ∧ exState.file = .content (.arr [])
    ∧ ((processMessage cexEnv10 exState (.obj cexRec10)).1.file
          = .content (.arr ([] ++ [.obj (cexRec10.filter (fun kv => kv.1 ≠ "_id"))]))
        ∧ ∀ kv : String × J,
            kv ∈ cexRec10.filter (fun kv => kv.1 ≠ "_id")
              ↔ (kv ∈ cexRec10 ∧ kv.1 ≠ "_id")) :=
  ⟨rfl, rfl, mirror_strips_exactly_id cexEnv10 exState cexRec10 [] rfl rfl⟩
